import Mathlib

/-
Verification of the VirtualOS button component (src/Utilities/button/button.c):
a debounce filter plus a click-classification state machine, polled once per
tick.  The C code is embedded shallowly: the function-pointer state is an
`Option state_tag`, the null `f_io_read` / `f_ev_cb` pointers are presence
flags, the raw sample that `f_io_read()` would return is passed to the scan
function as an argument, and the unsigned tick counters are `Nat`.
-/

namespace VirtualOSButton

/-- Event kinds of `button_event_e` (declared in button.h, used throughout
button.c). -/
inductive button_event_e where
  | BTN_EVENT_NONE
  | BTN_EVENT_POPUP
  | BTN_EVENT_SINGLE_CLICK
  | BTN_EVENT_DOUBLE_CLICK
  | BTN_EVENT_MORE_CLICK
  | BTN_EVENT_LONG_CLICK
deriving DecidableEq, Repr

/-- The per-tick logical input fed to a state handler (`BTN_IO_EVENT_E` in
button.c). -/
inductive BTN_IO_EVENT_E where
  | BTN_IO_EVENT_UP
  | BTN_IO_EVENT_DOWN
deriving DecidableEq, Repr

/-- Tags naming the six state-handler functions of button.c.  The source
stores the current state as a function pointer (`p_btn->state.state`); here
one tag per handler, dispatched by `machine_step`. -/
inductive state_tag where
  | on_idle
  | on_up
  | on_down
  | on_up_suspense
  | on_down_short
  | on_down_long
deriving DecidableEq, Repr

/-- Modelled from the spec: `BUTTON_LEVEL_HIGH` is declared in button.h,
which is not part of the sources; the spec describes levels as single-bit
values and construction as initialising the debounce fields to the released
(complement of active) level, so the high level is `true`. -/
def BUTTON_LEVEL_HIGH : Bool := true

/-- Configuration `button_cfg_t` (button.h): the `f_io_read` function pointer
is modelled by the presence flag `has_io_read` (whether the pointer is
non-null); the sample it would return is an argument of `button_scan`. -/
structure button_cfg_t where
  has_io_read : Bool
  active_lv : Bool
  long_min_cnt : Nat
  up_max_cnt : Nat
deriving DecidableEq, Repr

/-- Instance state `button_t` (button.h): debounce fields `jit.previous` and
`jit.asserted`, current state (an `Option` since the function pointer may be
null), tick counter, click count, and the presence flag of the `f_ev_cb`
callback pointer. -/
structure button_t where
  cfg : button_cfg_t
  has_ev_cb : Bool
  jit_previous : Bool
  jit_asserted : Bool
  state : Option state_tag
  counter : Nat
  click_cnt : Nat
deriving DecidableEq, Repr

/-- Event payload `button_ev_t` delivered to the callback: kind plus the
click count at emission time. -/
structure button_ev_t where
  ev_type : button_event_e
  clicks : Nat
deriving DecidableEq, Repr

/-- `dispatch_click_type` of button.c: `(click_cnt < 3) ? click_type[click_cnt]
: BTN_EVENT_MORE_CLICK` with `click_type = {NONE, SINGLE, DOUBLE}`. -/
def dispatch_click_type (click_cnt : Nat) : button_event_e :=
  match click_cnt with
  | 0 => .BTN_EVENT_NONE
  | 1 => .BTN_EVENT_SINGLE_CLICK
  | 2 => .BTN_EVENT_DOUBLE_CLICK
  | _ => .BTN_EVENT_MORE_CLICK

/-- `on_idle_handler` of button.c. -/
def on_idle_handler (b : button_t) (io_ev : BTN_IO_EVENT_E) :
    button_event_e × button_t :=
  match io_ev with
  | .BTN_IO_EVENT_UP =>
      (.BTN_EVENT_NONE, { b with state := some .on_up })
  | .BTN_IO_EVENT_DOWN =>
      (.BTN_EVENT_NONE,
       { b with counter := 0, click_cnt := 1, state := some .on_down })

/-- `on_up_handler` of button.c. -/
def on_up_handler (b : button_t) (io_ev : BTN_IO_EVENT_E) :
    button_event_e × button_t :=
  match io_ev with
  | .BTN_IO_EVENT_DOWN =>
      (.BTN_EVENT_NONE,
       { b with counter := 0, click_cnt := 1, state := some .on_down })
  | .BTN_IO_EVENT_UP => (.BTN_EVENT_NONE, b)

/-- `on_up_suspense_handler` of button.c. -/
def on_up_suspense_handler (b : button_t) (io_ev : BTN_IO_EVENT_E) :
    button_event_e × button_t :=
  match io_ev with
  | .BTN_IO_EVENT_UP =>
      if b.counter + 1 ≥ b.cfg.up_max_cnt then
        (dispatch_click_type b.click_cnt,
         { b with counter := 0, state := some .on_up })
      else
        (.BTN_EVENT_NONE, { b with counter := b.counter + 1 })
  | .BTN_IO_EVENT_DOWN =>
      (.BTN_EVENT_NONE,
       { b with counter := 0, click_cnt := b.click_cnt + 1,
                state := some .on_down_short })

/-- `on_down_handler` of button.c. -/
def on_down_handler (b : button_t) (io_ev : BTN_IO_EVENT_E) :
    button_event_e × button_t :=
  match io_ev with
  | .BTN_IO_EVENT_UP =>
      (.BTN_EVENT_POPUP, { b with counter := 0, state := some .on_up_suspense })
  | .BTN_IO_EVENT_DOWN =>
      if b.counter + 1 ≥ b.cfg.long_min_cnt then
        (.BTN_EVENT_LONG_CLICK,
         { b with counter := 0, state := some .on_down_long })
      else
        (.BTN_EVENT_NONE, { b with counter := b.counter + 1 })

/-- `on_down_short_handler` of button.c. -/
def on_down_short_handler (b : button_t) (io_ev : BTN_IO_EVENT_E) :
    button_event_e × button_t :=
  match io_ev with
  | .BTN_IO_EVENT_UP =>
      (.BTN_EVENT_POPUP, { b with counter := 0, state := some .on_up_suspense })
  | .BTN_IO_EVENT_DOWN =>
      if b.counter + 1 ≥ b.cfg.up_max_cnt then
        (dispatch_click_type b.click_cnt,
         { b with counter := 0, state := some .on_down_long })
      else
        (.BTN_EVENT_NONE, { b with counter := b.counter + 1 })

/-- `on_down_long_handler` of button.c. -/
def on_down_long_handler (b : button_t) (io_ev : BTN_IO_EVENT_E) :
    button_event_e × button_t :=
  match io_ev with
  | .BTN_IO_EVENT_UP =>
      (.BTN_EVENT_POPUP, { b with state := some .on_up })
  | .BTN_IO_EVENT_DOWN => (.BTN_EVENT_NONE, b)

/-- Dispatch through the state function pointer, as
`((on_state_handler)p_btn->state.state)(p_btn, io_ev)` in `button_scan`.
A null pointer is modelled as a no-op here; `button_scan` never reaches this
case with `none` because of its guard. -/
def machine_step (b : button_t) (io_ev : BTN_IO_EVENT_E) :
    button_event_e × button_t :=
  match b.state with
  | none => (.BTN_EVENT_NONE, b)
  | some .on_idle => on_idle_handler b io_ev
  | some .on_up => on_up_handler b io_ev
  | some .on_up_suspense => on_up_suspense_handler b io_ev
  | some .on_down => on_down_handler b io_ev
  | some .on_down_short => on_down_short_handler b io_ev
  | some .on_down_long => on_down_long_handler b io_ev

/-- Feed a list of logical io events to the state machine, recording each
tick's produced event together with the click count after the handler ran
(the payload `button_scan` would hand to the callback). -/
def machine_run (b : button_t) (l : List BTN_IO_EVENT_E) :
    List (button_event_e × Nat) × button_t :=
  match l with
  | [] => ([], b)
  | e :: es =>
      let s := machine_step b e
      let rest := machine_run s.2 es
      ((s.1, s.2.click_cnt) :: rest.1, rest.2)

/-- `button_debounce` of button.c, with the raw sample `cur_lv` (the return
value of `p_btn->cfg.f_io_read()`) passed as an argument: the two sequential
assignments `asserted |= previous & cur` then `asserted &= previous | cur`
compose to one boolean expression. -/
def button_debounce (b : button_t) (cur_lv : Bool) : Bool × button_t :=
  let asserted :=
    (b.jit_asserted || (b.jit_previous && cur_lv)) && (b.jit_previous || cur_lv)
  (asserted, { b with jit_asserted := asserted, jit_previous := cur_lv })

/-- Repeated `button_debounce`, state only (used to state debounce-sequence
properties). -/
def debounce_feed (b : button_t) (l : List Bool) : button_t :=
  match l with
  | [] => b
  | r :: rs => debounce_feed (button_debounce b r).2 rs

/-- `button_scan` of button.c on a non-null instance pointer.  Returns the
event kind it returns, the mutated instance, and the payload delivered to the
callback (`none` when the callback is not invoked, i.e. when the event is
`BTN_EVENT_NONE` or `f_ev_cb` is null). -/
def button_scan (p_btn : button_t) (raw : Bool) :
    button_event_e × button_t × Option button_ev_t :=
  if p_btn.cfg.has_io_read = false ∨ p_btn.state = none then
    (.BTN_EVENT_NONE, p_btn, none)
  else
    let d := button_debounce p_btn raw
    let io_ev := if d.1 = p_btn.cfg.active_lv then
        BTN_IO_EVENT_E.BTN_IO_EVENT_DOWN
      else
        BTN_IO_EVENT_E.BTN_IO_EVENT_UP
    let s := machine_step d.2 io_ev
    if s.1 ≠ .BTN_EVENT_NONE ∧ s.2.has_ev_cb = true then
      (s.1, s.2, some ⟨s.1, s.2.click_cnt⟩)
    else
      (s.1, s.2, none)

/-- `button_scan` including the null-instance-pointer guard (`!p_btn`). -/
def button_scan_ptr (p_btn : Option button_t) (raw : Bool) :
    button_event_e × Option button_t × Option button_ev_t :=
  match p_btn with
  | none => (.BTN_EVENT_NONE, none, none)
  | some b =>
      let r := button_scan b raw
      (r.1, some r.2.1, r.2.2)

/-- Feed a list of raw samples through `button_scan`, recording each tick's
returned event kind and callback payload. -/
def button_scan_seq (b : button_t) (l : List Bool) :
    List (button_event_e × Option button_ev_t) × button_t :=
  match l with
  | [] => ([], b)
  | r :: rs =>
      let s := button_scan b r
      let rest := button_scan_seq s.2.1 rs
      ((s.1, s.2.2) :: rest.1, rest.2)

/-- `button_ctor` of button.c.  `p_cfg` is the (possibly null) configuration
pointer, `cb` the presence of the callback pointer.  The C function leaves
`state.counter` and `state.click_cnt` uninitialised in the non-null case, and
everything except `cfg.f_io_read` and `state.state` uninitialised in the null
case; the arbitrary `junk` instance supplies those indeterminate fields. -/
def button_ctor (p_cfg : Option button_cfg_t) (cb : Bool) (junk : button_t) :
    button_t :=
  match p_cfg with
  | some c =>
      { cfg := c
        has_ev_cb := cb
        jit_previous := xor c.active_lv BUTTON_LEVEL_HIGH
        jit_asserted := xor c.active_lv BUTTON_LEVEL_HIGH
        state := some .on_idle
        counter := junk.counter
        click_cnt := junk.click_cnt }
  | none =>
      { junk with
        cfg := { junk.cfg with has_io_read := false }
        state := none }

/-- Specification-side debounce update, written from the words of spec §4.1:
`a' = (a OR (p AND r)) AND (p OR r)`, `p' = r`; returned as the pair
`(a', p')`.  Used only to compare the source's `button_debounce` against the
spec formula. -/
def debounce_spec_update (a p r : Bool) : Bool × Bool :=
  ((a || (p && r)) && (p || r), r)

end VirtualOSButton

namespace VirtualOSButton

/-! ### Helper lemmas -/

theorem debounce_feed_append (b : button_t) (l1 l2 : List Bool) :
    debounce_feed b (l1 ++ l2) = debounce_feed (debounce_feed b l1) l2 := by
  induction l1 generalizing b with
  | nil => rfl
  | cons r rs ih => simp [debounce_feed, ih]

/-! ### Claims C1 and C4: the debounce filter -/

/-- C1 (counterexample): with prior asserted value 1 and prior raw sample 1, a
current raw sample 0 leaves the debounce output at 1, contradicting the
claimed pair rule `(1,0) -> 0` "regardless of the prior asserted value"; the
offending debounce state is reached from the freshly constructed state
(previous = asserted = 0) by the raw sample sequence 1, 1, 0, after which the
two most recent samples are not both 1 yet the output is 1. -/
theorem C1_counterexample :
    (button_debounce
      ⟨⟨true, true, 5, 2⟩, true, true, true, some .on_idle, 0, 1⟩ false).1
      = true ∧
    (debounce_feed
      ⟨⟨true, true, 5, 2⟩, true, false, false, some .on_idle, 0, 1⟩
      [true, true, false]).jit_asserted = true := by
  exact ⟨rfl, rfl⟩

/-- C1 (amended): the debounce output changes only when the two most recent
raw samples agree: one tick of `button_debounce` yields output `r` when the
previous sample equals the current sample `r`, and retains the prior asserted
value otherwise (so assertion needs two consecutive 1-samples and deassertion
needs two consecutive 0-samples — symmetric, not asymmetric); consequently
after any sample sequence ending in two equal samples `x, x` the output is
`x`. -/
theorem C1_amended_debounce :
    (∀ (b : button_t) (r : Bool),
      (button_debounce b r).1 =
        if b.jit_previous = r then r else b.jit_asserted) ∧
    (∀ (b : button_t) (l : List Bool) (x : Bool),
      (debounce_feed b (l ++ [x, x])).jit_asserted = x) := by
  constructor
  · intro b r
    cases hp : b.jit_previous <;> cases r <;> cases ha : b.jit_asserted <;>
      simp [button_debounce, hp, ha]
  · intro b l x
    rw [debounce_feed_append]
    cases x <;> simp [debounce_feed, button_debounce]

/-- C4: one tick of `button_debounce` computes exactly the update written in
the spec, `a' = (a OR (p AND r)) AND (p OR r)`, `p' = r`: the returned level
and the stored debounce fields equal the spec-side `debounce_spec_update`
applied to the prior asserted value, prior sample and current sample, and no
other field of the instance changes. -/
theorem C4_debounce_exact :
    ∀ (b : button_t) (r : Bool),
      (button_debounce b r).1 =
        (debounce_spec_update b.jit_asserted b.jit_previous r).1 ∧
      (button_debounce b r).2 =
        { b with
          jit_asserted := (debounce_spec_update b.jit_asserted b.jit_previous r).1
          jit_previous := (debounce_spec_update b.jit_asserted b.jit_previous r).2 } := by
  intro b r
  exact ⟨rfl, rfl⟩

/-! ### Claim C8: Popup on release from every pressed state -/

/-- C8: in each of the logically pressed states (`on_down`, `on_down_short`,
`on_down_long`), a released input produces a `BTN_EVENT_POPUP` event on that
same tick, whatever the counters and configuration are. -/
theorem C8_release_emits_popup :
    ∀ (b : button_t),
      (b.state = some .on_down ∨ b.state = some .on_down_short ∨
        b.state = some .on_down_long) →
      (machine_step b .BTN_IO_EVENT_UP).1 = .BTN_EVENT_POPUP := by
  intro b h
  rcases h with h | h | h <;>
    simp [machine_step, h, on_down_handler, on_down_short_handler,
      on_down_long_handler]

/-- C8 (witness): the theorem applied to a concrete pressed instance. -/
theorem C8_witness :
    (machine_step
      ⟨⟨true, true, 5, 2⟩, true, true, true, some .on_down, 3, 1⟩
      .BTN_IO_EVENT_UP).1 = .BTN_EVENT_POPUP :=
  C8_release_emits_popup
    ⟨⟨true, true, 5, 2⟩, true, true, true, some .on_down, 3, 1⟩ (Or.inl rfl)

end VirtualOSButton

namespace VirtualOSButton

/-! ### Claim C6: DownShort threshold behaviour -/

/-- C6: in state `on_down_short`, a pressed input that brings the counter to
`up_max_cnt` emits the classification of the current click count (1 gives
SingleClick, 2 DoubleClick, at least 3 MoreClick), resets the counter to 0
and moves to `on_down_long`; a pressed input below the threshold emits
nothing, keeps the state and only increments the counter. -/
theorem C6_down_short_threshold :
    ∀ (b : button_t), b.state = some .on_down_short →
      (b.counter + 1 ≥ b.cfg.up_max_cnt →
        (machine_step b .BTN_IO_EVENT_DOWN).1 = dispatch_click_type b.click_cnt ∧
        (b.click_cnt = 1 →
          (machine_step b .BTN_IO_EVENT_DOWN).1 = .BTN_EVENT_SINGLE_CLICK) ∧
        (b.click_cnt = 2 →
          (machine_step b .BTN_IO_EVENT_DOWN).1 = .BTN_EVENT_DOUBLE_CLICK) ∧
        (3 ≤ b.click_cnt →
          (machine_step b .BTN_IO_EVENT_DOWN).1 = .BTN_EVENT_MORE_CLICK) ∧
        (machine_step b .BTN_IO_EVENT_DOWN).2 =
          { b with counter := 0, state := some .on_down_long }) ∧
      (b.counter + 1 < b.cfg.up_max_cnt →
        (machine_step b .BTN_IO_EVENT_DOWN).1 = .BTN_EVENT_NONE ∧
        (machine_step b .BTN_IO_EVENT_DOWN).2 = { b with counter := b.counter + 1 }) := by
  intro b h
  constructor
  · intro hge
    have hstep : machine_step b .BTN_IO_EVENT_DOWN =
        (dispatch_click_type b.click_cnt,
         { b with counter := 0, state := some .on_down_long }) := by
      simp only [machine_step, h, on_down_short_handler, if_pos hge]
    rw [hstep]
    refine ⟨rfl, ?_, ?_, ?_, rfl⟩
    · intro h1; rw [h1]; rfl
    · intro h2; rw [h2]; rfl
    · intro h3
      obtain ⟨m, hm⟩ : ∃ m, b.click_cnt = m + 3 := ⟨b.click_cnt - 3, by omega⟩
      rw [hm]; rfl
  · intro hlt
    have hstep : machine_step b .BTN_IO_EVENT_DOWN =
        (.BTN_EVENT_NONE, { b with counter := b.counter + 1 }) := by
      simp only [machine_step, h, on_down_short_handler,
        if_neg (by omega : ¬ b.counter + 1 ≥ b.cfg.up_max_cnt)]
    rw [hstep]
    exact ⟨rfl, rfl⟩

/-- C6 (witness): the theorem applied to a concrete `on_down_short` instance
whose counter reaches the threshold with click count 2. -/
theorem C6_witness :
    (machine_step
      ⟨⟨true, true, 5, 1⟩, true, true, true, some .on_down_short, 0, 2⟩
      .BTN_IO_EVENT_DOWN).1 = .BTN_EVENT_DOUBLE_CLICK := by
  have h := C6_down_short_threshold
    ⟨⟨true, true, 5, 1⟩, true, true, true, some .on_down_short, 0, 2⟩ rfl
  exact (h.1 (by decide)).2.2.1 rfl

/-! ### Claim C7: absent instance, read function or state -/

/-- C7: a null instance pointer, a null `f_io_read`, or a null state handler
makes `button_scan` return `BTN_EVENT_NONE` with the instance unchanged and
no callback invocation; an instance built by `button_ctor` from a null
configuration is of that shape, so every scan of it, over any raw-sample
sequence, returns `BTN_EVENT_NONE`, never invokes the callback and never
mutates the instance. -/
theorem C7_guard_returns_none :
    (∀ (raw : Bool), button_scan_ptr none raw = (.BTN_EVENT_NONE, none, none)) ∧
    (∀ (b : button_t) (raw : Bool),
      b.cfg.has_io_read = false ∨ b.state = none →
      button_scan b raw = (.BTN_EVENT_NONE, b, none)) ∧
    (∀ (cb : Bool) (junk : button_t) (raws : List Bool),
      (button_scan_seq (button_ctor none cb junk) raws).1 =
        List.replicate raws.length (.BTN_EVENT_NONE, none) ∧
      (button_scan_seq (button_ctor none cb junk) raws).2 =
        button_ctor none cb junk) := by
  have hstep : ∀ (b : button_t) (raw : Bool),
      b.cfg.has_io_read = false ∨ b.state = none →
      button_scan b raw = (.BTN_EVENT_NONE, b, none) := by
    intro b raw h
    unfold button_scan
    rw [if_pos h]
  refine ⟨fun raw => rfl, hstep, ?_⟩
  intro cb junk raws
  induction raws with
  | nil => exact ⟨rfl, rfl⟩
  | cons r rs ih =>
      have h1 : button_scan (button_ctor none cb junk) r =
          (.BTN_EVENT_NONE, button_ctor none cb junk, none) :=
        hstep _ _ (Or.inl rfl)
      refine ⟨?_, ?_⟩
      · simp only [button_scan_seq, h1, List.replicate, List.length_cons]
        exact congrArg _ ih.1
      · simp only [button_scan_seq, h1]
        exact ih.2

/-- C7 (witness): the theorem applied to a concrete disabled instance (null
read function) and one raw sample. -/
theorem C7_witness :
    button_scan
      ⟨⟨false, true, 5, 2⟩, true, false, false, some .on_idle, 0, 1⟩ true =
      (.BTN_EVENT_NONE,
        ⟨⟨false, true, 5, 2⟩, true, false, false, some .on_idle, 0, 1⟩, none) :=
  C7_guard_returns_none.2.1
    ⟨⟨false, true, 5, 2⟩, true, false, false, some .on_idle, 0, 1⟩ true
    (Or.inl rfl)

end VirtualOSButton

namespace VirtualOSButton

/-- The logical io event `button_scan` derives by comparing the debounced
level to the configured active level. -/
def scan_io_ev (b : button_t) (raw : Bool) : BTN_IO_EVENT_E :=
  if (button_debounce b raw).1 = b.cfg.active_lv then .BTN_IO_EVENT_DOWN
  else .BTN_IO_EVENT_UP

/-- The handler invocation performed by an enabled `button_scan`. -/
def scan_res (b : button_t) (raw : Bool) : button_event_e × button_t :=
  machine_step (button_debounce b raw).2 (scan_io_ev b raw)

theorem button_scan_enabled (b : button_t) (raw : Bool)
    (h : ¬(b.cfg.has_io_read = false ∨ b.state = none)) :
    button_scan b raw =
      ((scan_res b raw).1, (scan_res b raw).2,
        if (scan_res b raw).1 ≠ .BTN_EVENT_NONE ∧
            (scan_res b raw).2.has_ev_cb = true then
          some ⟨(scan_res b raw).1, (scan_res b raw).2.click_cnt⟩
        else none) := by
  unfold button_scan
  rw [if_neg h]
  dsimp only
  unfold scan_res scan_io_ev
  split <;> split <;> rfl

theorem machine_step_none_click (b : button_t) (e : BTN_IO_EVENT_E) :
    (machine_step b e).1 = .BTN_EVENT_NONE →
    ((machine_step b e).2.click_cnt = b.click_cnt ∨
      (e = .BTN_IO_EVENT_DOWN ∧
        (b.state = some .on_idle ∨ b.state = some .on_up ∨
          b.state = some .on_up_suspense))) := by
  intro h
  rcases hs : b.state with _ | tag
  · left; simp [machine_step, hs]
  · cases tag <;> cases e <;>
      simp only [machine_step, hs, on_idle_handler, on_up_handler,
        on_up_suspense_handler, on_down_handler, on_down_short_handler,
        on_down_long_handler] at h ⊢ <;>
      (try split_ifs at h ⊢) <;> simp_all

end VirtualOSButton

namespace VirtualOSButton

/-! ### Claim C2: ticks that return None -/

/-- C2 (counterexample): from a freshly constructed instance (active level 1,
`long_min_cnt` 5, `up_max_cnt` 2), the raw sample sequence 1,1,0,0,1 leaves
`click_cnt` at 1, and the next scan with raw sample 1 (a re-press inside the
click window, handled by `on_up_suspense_handler`) returns `BTN_EVENT_NONE`
yet mutates `click_cnt` to 2 — a tick whose returned event is None does not
leave `click_cnt` unchanged. -/
theorem C2_counterexample :
    (button_scan_seq (button_ctor (some ⟨true, true, 5, 2⟩) true
        ⟨⟨true, true, 5, 2⟩, true, false, false, none, 0, 0⟩)
        [true, true, false, false, true]).2.click_cnt = 1 ∧
    (button_scan (button_scan_seq (button_ctor (some ⟨true, true, 5, 2⟩) true
        ⟨⟨true, true, 5, 2⟩, true, false, false, none, 0, 0⟩)
        [true, true, false, false, true]).2 true).1 = .BTN_EVENT_NONE ∧
    (button_scan (button_scan_seq (button_ctor (some ⟨true, true, 5, 2⟩) true
        ⟨⟨true, true, 5, 2⟩, true, false, false, none, 0, 0⟩)
        [true, true, false, false, true]).2 true).2.1.click_cnt = 2 := by
  exact ⟨rfl, rfl, rfl⟩

/-- C2 (amended): a scan tick whose returned event is `BTN_EVENT_NONE` never
invokes the callback; it also leaves `click_cnt` unchanged except when the
tick registers a pressed level while the machine is in `on_idle`, `on_up`
(where `click_cnt` is set to 1) or `on_up_suspense` (where it is
incremented). -/
theorem C2_amended_none_tick :
    ∀ (b : button_t) (raw : Bool),
      (button_scan b raw).1 = .BTN_EVENT_NONE →
      (button_scan b raw).2.2 = none ∧
      ((button_scan b raw).2.1.click_cnt = b.click_cnt ∨
        ((button_debounce b raw).1 = b.cfg.active_lv ∧
          (b.state = some .on_idle ∨ b.state = some .on_up ∨
            b.state = some .on_up_suspense))) := by
  intro b raw hnone
  by_cases hg : (b.cfg.has_io_read = false ∨ b.state = none)
  · have heq : button_scan b raw = (.BTN_EVENT_NONE, b, none) := by
      unfold button_scan; rw [if_pos hg]
    rw [heq]
    exact ⟨rfl, Or.inl rfl⟩
  · rw [button_scan_enabled b raw hg] at hnone ⊢
    dsimp only at hnone ⊢
    constructor
    · rw [if_neg]
      simp [hnone]
    · have hmc := machine_step_none_click (button_debounce b raw).2
        (scan_io_ev b raw) hnone
      rcases hmc with hcl | ⟨hio, hst⟩
      · exact Or.inl hcl
      · refine Or.inr ⟨?_, hst⟩
        by_contra hne
        simp [scan_io_ev, hne] at hio

/-- C2 (witness): the amended theorem applied to an idle instance sampling
the inactive level: the tick returns None, invokes no callback and leaves
`click_cnt` unchanged. -/
theorem C2_witness :
    (button_scan ⟨⟨true, true, 5, 2⟩, true, false, false, some .on_idle, 0, 1⟩
        false).2.2 = none ∧
    ((button_scan ⟨⟨true, true, 5, 2⟩, true, false, false, some .on_idle, 0, 1⟩
        false).2.1.click_cnt = 1 ∨
      ((button_debounce ⟨⟨true, true, 5, 2⟩, true, false, false, some .on_idle, 0, 1⟩
          false).1 = true ∧
        (some state_tag.on_idle = some state_tag.on_idle ∨
          some state_tag.on_idle = some state_tag.on_up ∨
          some state_tag.on_idle = some state_tag.on_up_suspense))) :=
  C2_amended_none_tick
    ⟨⟨true, true, 5, 2⟩, true, false, false, some .on_idle, 0, 1⟩ false rfl

end VirtualOSButton

namespace VirtualOSButton

/-! ### Run lemmas for the click scenarios -/

theorem machine_run_append (b : button_t) (l1 l2 : List BTN_IO_EVENT_E) :
    machine_run b (l1 ++ l2) =
      ((machine_run b l1).1 ++ (machine_run (machine_run b l1).2 l2).1,
        (machine_run (machine_run b l1).2 l2).2) := by
  induction l1 generalizing b with
  | nil => rfl
  | cons e es ih => simp [machine_run, ih]

theorem machine_run_down_hold (n : Nat) :
    ∀ (b : button_t), b.state = some .on_down →
      b.counter + n < b.cfg.long_min_cnt →
      machine_run b (List.replicate n .BTN_IO_EVENT_DOWN) =
        (List.replicate n (.BTN_EVENT_NONE, b.click_cnt),
          { b with counter := b.counter + n }) := by
  induction n with
  | zero => intro b hs hc; rfl
  | succ n ih =>
      intro b hs hc
      have hstep : machine_step b .BTN_IO_EVENT_DOWN =
          (.BTN_EVENT_NONE, { b with counter := b.counter + 1 }) := by
        simp only [machine_step, hs, on_down_handler,
          if_neg (by omega : ¬ b.counter + 1 ≥ b.cfg.long_min_cnt)]
      have ihb := ih { b with counter := b.counter + 1 } hs
        (by show b.counter + 1 + n < b.cfg.long_min_cnt; omega)
      simp only [List.replicate, machine_run, hstep, ihb]
      have harith : b.counter + 1 + n = b.counter + (n + 1) := by omega
      rw [harith]
  
theorem machine_run_suspense_hold (n : Nat) :
    ∀ (b : button_t), b.state = some .on_up_suspense →
      b.counter + n < b.cfg.up_max_cnt →
      machine_run b (List.replicate n .BTN_IO_EVENT_UP) =
        (List.replicate n (.BTN_EVENT_NONE, b.click_cnt),
          { b with counter := b.counter + n }) := by
  induction n with
  | zero => intro b hs hc; rfl
  | succ n ih =>
      intro b hs hc
      have hstep : machine_step b .BTN_IO_EVENT_UP =
          (.BTN_EVENT_NONE, { b with counter := b.counter + 1 }) := by
        simp only [machine_step, hs, on_up_suspense_handler,
          if_neg (by omega : ¬ b.counter + 1 ≥ b.cfg.up_max_cnt)]
      have ihb := ih { b with counter := b.counter + 1 } hs
        (by show b.counter + 1 + n < b.cfg.up_max_cnt; omega)
      simp only [List.replicate, machine_run, hstep, ihb]
      have harith : b.counter + 1 + n = b.counter + (n + 1) := by omega
      rw [harith]

theorem machine_run_down_long_hold (n : Nat) :
    ∀ (b : button_t), b.state = some .on_down_long →
      machine_run b (List.replicate n .BTN_IO_EVENT_DOWN) =
        (List.replicate n (.BTN_EVENT_NONE, b.click_cnt), b) := by
  induction n with
  | zero => intro b hs; rfl
  | succ n ih =>
      intro b hs
      have hstep : machine_step b .BTN_IO_EVENT_DOWN = (.BTN_EVENT_NONE, b) := by
        simp only [machine_step, hs, on_down_long_handler]
      simp only [List.replicate, machine_run, hstep, ih b hs]

theorem machine_run_up_hold (n : Nat) :
    ∀ (b : button_t), b.state = some .on_up →
      machine_run b (List.replicate n .BTN_IO_EVENT_UP) =
        (List.replicate n (.BTN_EVENT_NONE, b.click_cnt), b) := by
  induction n with
  | zero => intro b hs; rfl
  | succ n ih =>
      intro b hs
      have hstep : machine_step b .BTN_IO_EVENT_UP = (.BTN_EVENT_NONE, b) := by
        simp only [machine_step, hs, on_up_handler]
      simp only [List.replicate, machine_run, hstep, ih b hs]

end VirtualOSButton

namespace VirtualOSButton

theorem machine_step_entry (b : button_t)
    (hs : b.state = some .on_idle ∨ b.state = some .on_up) :
    machine_step b .BTN_IO_EVENT_DOWN =
      (.BTN_EVENT_NONE,
       { b with counter := 0, click_cnt := 1, state := some .on_down }) := by
  rcases hs with hs | hs <;>
    simp only [machine_step, hs, on_idle_handler, on_up_handler]

theorem machine_step_long_threshold (b : button_t)
    (hs : b.state = some .on_down)
    (hc : b.counter + 1 ≥ b.cfg.long_min_cnt) :
    machine_step b .BTN_IO_EVENT_DOWN =
      (.BTN_EVENT_LONG_CLICK,
       { b with counter := 0, state := some .on_down_long }) := by
  simp only [machine_step, hs, on_down_handler, if_pos hc]

theorem machine_step_down_release (b : button_t)
    (hs : b.state = some .on_down) :
    machine_step b .BTN_IO_EVENT_UP =
      (.BTN_EVENT_POPUP,
       { b with counter := 0, state := some .on_up_suspense }) := by
  simp only [machine_step, hs, on_down_handler]

theorem machine_step_suspense_threshold (b : button_t)
    (hs : b.state = some .on_up_suspense)
    (hc : b.counter + 1 ≥ b.cfg.up_max_cnt) :
    machine_step b .BTN_IO_EVENT_UP =
      (dispatch_click_type b.click_cnt,
       { b with counter := 0, state := some .on_up }) := by
  simp only [machine_step, hs, on_up_suspense_handler, if_pos hc]

theorem machine_step_long_release (b : button_t)
    (hs : b.state = some .on_down_long) :
    machine_step b .BTN_IO_EVENT_UP =
      (.BTN_EVENT_POPUP, { b with state := some .on_up }) := by
  simp only [machine_step, hs, on_down_long_handler]

theorem run_long_scenario (b : button_t) (w j : Nat)
    (hs : b.state = some .on_idle ∨ b.state = some .on_up)
    (hl : b.cfg.long_min_cnt = w + 1) :
    (machine_run b
      (List.replicate (w + 2 + j) .BTN_IO_EVENT_DOWN ++ [.BTN_IO_EVENT_UP])).1 =
      List.replicate (w + 1) (.BTN_EVENT_NONE, 1) ++
        (.BTN_EVENT_LONG_CLICK, 1) ::
        List.replicate j (.BTN_EVENT_NONE, 1) ++ [(.BTN_EVENT_POPUP, 1)] := by
  have hsplit : (List.replicate (w + 2 + j) BTN_IO_EVENT_E.BTN_IO_EVENT_DOWN ++
      [BTN_IO_EVENT_E.BTN_IO_EVENT_UP]) =
      BTN_IO_EVENT_E.BTN_IO_EVENT_DOWN ::
        (List.replicate w BTN_IO_EVENT_E.BTN_IO_EVENT_DOWN ++
          (BTN_IO_EVENT_E.BTN_IO_EVENT_DOWN ::
            (List.replicate j BTN_IO_EVENT_E.BTN_IO_EVENT_DOWN ++
              [BTN_IO_EVENT_E.BTN_IO_EVENT_UP]))) := by
    rw [show w + 2 + j = (w + 1) + (j + 1) from by omega, List.replicate_add]
    simp [List.replicate_succ, List.append_assoc]
  rw [hsplit]
  have h1 := machine_step_entry b hs
  have h2 := machine_run_down_hold w
      { b with counter := 0, click_cnt := 1, state := some .on_down } rfl
      (by show 0 + w < b.cfg.long_min_cnt; omega)
  dsimp only at h2
  rw [Nat.zero_add] at h2
  have h3 := machine_step_long_threshold
      { b with counter := w, click_cnt := 1, state := some .on_down } rfl
      (by show w + 1 ≥ b.cfg.long_min_cnt; omega)
  dsimp only at h3
  have h4 := machine_run_down_long_hold j
      { b with counter := 0, click_cnt := 1, state := some .on_down_long } rfl
  dsimp only at h4
  have h5 := machine_step_long_release
      { b with counter := 0, click_cnt := 1, state := some .on_down_long } rfl
  dsimp only at h5
  simp only [machine_run, machine_run_append, h1, h2, h3, h4, h5,
    List.replicate_succ, List.cons_append, List.nil_append, List.append_assoc]

end VirtualOSButton

namespace VirtualOSButton

theorem run_single_click_scenario (b : button_t) (k v j : Nat)
    (hs : b.state = some .on_idle ∨ b.state = some .on_up)
    (hu : b.cfg.up_max_cnt = v + 1)
    (hk : k + 1 < b.cfg.long_min_cnt) :
    (machine_run b
      (List.replicate (k + 1) .BTN_IO_EVENT_DOWN ++
        List.replicate (v + 2 + j) .BTN_IO_EVENT_UP)).1 =
      List.replicate (k + 1) (.BTN_EVENT_NONE, 1) ++
        (.BTN_EVENT_POPUP, 1) :: List.replicate v (.BTN_EVENT_NONE, 1) ++
        (.BTN_EVENT_SINGLE_CLICK, 1) :: List.replicate j (.BTN_EVENT_NONE, 1) := by
  have hB : List.replicate (v + 2 + j) BTN_IO_EVENT_E.BTN_IO_EVENT_UP =
      BTN_IO_EVENT_E.BTN_IO_EVENT_UP ::
        (List.replicate v BTN_IO_EVENT_E.BTN_IO_EVENT_UP ++
          (BTN_IO_EVENT_E.BTN_IO_EVENT_UP ::
            List.replicate j BTN_IO_EVENT_E.BTN_IO_EVENT_UP)) := by
    rw [show v + 2 + j = (v + 1) + (j + 1) from by omega, List.replicate_add]
    simp [List.replicate_succ, List.append_assoc]
  have hsplit : (List.replicate (k + 1) BTN_IO_EVENT_E.BTN_IO_EVENT_DOWN ++
      List.replicate (v + 2 + j) BTN_IO_EVENT_E.BTN_IO_EVENT_UP) =
      BTN_IO_EVENT_E.BTN_IO_EVENT_DOWN ::
        (List.replicate k BTN_IO_EVENT_E.BTN_IO_EVENT_DOWN ++
          (BTN_IO_EVENT_E.BTN_IO_EVENT_UP ::
            (List.replicate v BTN_IO_EVENT_E.BTN_IO_EVENT_UP ++
              (BTN_IO_EVENT_E.BTN_IO_EVENT_UP ::
                List.replicate j BTN_IO_EVENT_E.BTN_IO_EVENT_UP)))) := by
    rw [hB, List.replicate_succ]
    simp [List.append_assoc]
  rw [hsplit]
  have h1 := machine_step_entry b hs
  have h2 := machine_run_down_hold k
      { b with counter := 0, click_cnt := 1, state := some .on_down } rfl
      (by show 0 + k < b.cfg.long_min_cnt; omega)
  dsimp only at h2
  rw [Nat.zero_add] at h2
  have h3 := machine_step_down_release
      { b with counter := k, click_cnt := 1, state := some .on_down } rfl
  dsimp only at h3
  have h4 := machine_run_suspense_hold v
      { b with counter := 0, click_cnt := 1, state := some .on_up_suspense } rfl
      (by show 0 + v < b.cfg.up_max_cnt; omega)
  dsimp only at h4
  rw [Nat.zero_add] at h4
  have h5 := machine_step_suspense_threshold
      { b with counter := v, click_cnt := 1, state := some .on_up_suspense } rfl
      (by show v + 1 ≥ b.cfg.up_max_cnt; omega)
  dsimp only at h5
  have h6 := machine_run_up_hold j
      { b with counter := 0, click_cnt := 1, state := some .on_up } rfl
  dsimp only at h6
  simp only [machine_run, machine_run_append, h1, h2, h3, h4, h5, h6,
    dispatch_click_type, List.replicate_succ, List.cons_append, List.nil_append,
    List.append_assoc]

/-! ### Claim C3: long click -/

/-- C3 (counterexample): with `long_min_cnt` = 2, a continuous press held for
exactly 2 ticks starting from the freshly constructed (Idle) instance
produces no event at all — in particular no `BTN_EVENT_LONG_CLICK` — because
the tick that enters the Down state does not increment the counter; the
threshold is only reached on the `long_min_cnt + 1`-th pressed tick. -/
theorem C3_counterexample :
    (machine_run (button_ctor (some ⟨true, true, 2, 5⟩) true
        ⟨⟨true, true, 2, 5⟩, true, false, false, none, 0, 0⟩)
      (List.replicate 2 .BTN_IO_EVENT_DOWN)).1 =
      [(.BTN_EVENT_NONE, 1), (.BTN_EVENT_NONE, 1)] := rfl

/-- C3 (amended): starting from the initial (Idle) state, a continuous press
held for `long_min_cnt + 1` ticks (and optionally `j` further held ticks)
emits `BTN_EVENT_LONG_CLICK` exactly once, at the tick the counter reaches
the threshold; the eventual release then emits `BTN_EVENT_POPUP`, and no
click-type event is emitted for the interaction. -/
theorem C3_amended_long_click :
    ∀ (cfg : button_cfg_t) (cb : Bool) (junk : button_t) (w j : Nat),
      cfg.long_min_cnt = w + 1 →
      (machine_run (button_ctor (some cfg) cb junk)
        (List.replicate (w + 2 + j) .BTN_IO_EVENT_DOWN ++ [.BTN_IO_EVENT_UP])).1 =
      List.replicate (w + 1) (.BTN_EVENT_NONE, 1) ++
        (.BTN_EVENT_LONG_CLICK, 1) ::
        List.replicate j (.BTN_EVENT_NONE, 1) ++ [(.BTN_EVENT_POPUP, 1)] := by
  intro cfg cb junk w j hl
  exact run_long_scenario (button_ctor (some cfg) cb junk) w j (Or.inl rfl) hl

/-- C3 (witness): the amended theorem at `long_min_cnt` = 2 (so `w` = 1),
no extra hold ticks: three pressed ticks then one released tick give
None, None, LongClick, Popup. -/
theorem C3_witness :
    (machine_run (button_ctor (some ⟨true, true, 2, 5⟩) true
        ⟨⟨true, true, 2, 5⟩, true, false, false, none, 0, 0⟩)
      (List.replicate 3 .BTN_IO_EVENT_DOWN ++ [.BTN_IO_EVENT_UP])).1 =
      List.replicate 2 (.BTN_EVENT_NONE, 1) ++
        (.BTN_EVENT_LONG_CLICK, 1) ::
        List.replicate 0 (.BTN_EVENT_NONE, 1) ++ [(.BTN_EVENT_POPUP, 1)] :=
  C3_amended_long_click ⟨true, true, 2, 5⟩ true
    ⟨⟨true, true, 2, 5⟩, true, false, false, none, 0, 0⟩ 1 0 rfl

/-! ### Claim C5: single click -/

/-- C5 (counterexample): with `long_min_cnt` = 5 and `up_max_cnt` = 2, a
press of 1 tick followed by a release held for exactly `up_max_cnt` = 2 ticks
yields None, Popup, None — no `BTN_EVENT_SINGLE_CLICK` is produced, because
the release tick that emits Popup does not count towards the window-closing
counter. -/
theorem C5_counterexample :
    (machine_run (button_ctor (some ⟨true, true, 5, 2⟩) true
        ⟨⟨true, true, 5, 2⟩, true, false, false, none, 0, 0⟩)
      (List.replicate 1 .BTN_IO_EVENT_DOWN ++ List.replicate 2 .BTN_IO_EVENT_UP)).1 =
      [(.BTN_EVENT_NONE, 1), (.BTN_EVENT_POPUP, 1), (.BTN_EVENT_NONE, 1)] := rfl

/-- C5 (amended): from the initial state, a press of at least 1 and fewer
than `long_min_cnt` ticks, followed by a release held for `up_max_cnt + 1`
ticks (that is, `up_max_cnt` ticks beyond the release tick itself, plus `j`
further released ticks) produces exactly one `BTN_EVENT_POPUP` (at the
release tick) and then exactly one `BTN_EVENT_SINGLE_CLICK` with click count
1, and no other events. -/
theorem C5_amended_single_click :
    ∀ (cfg : button_cfg_t) (cb : Bool) (junk : button_t) (k v j : Nat),
      cfg.up_max_cnt = v + 1 →
      k + 1 < cfg.long_min_cnt →
      (machine_run (button_ctor (some cfg) cb junk)
        (List.replicate (k + 1) .BTN_IO_EVENT_DOWN ++
          List.replicate (v + 2 + j) .BTN_IO_EVENT_UP)).1 =
      List.replicate (k + 1) (.BTN_EVENT_NONE, 1) ++
        (.BTN_EVENT_POPUP, 1) :: List.replicate v (.BTN_EVENT_NONE, 1) ++
        (.BTN_EVENT_SINGLE_CLICK, 1) :: List.replicate j (.BTN_EVENT_NONE, 1) := by
  intro cfg cb junk k v j hu hk
  exact run_single_click_scenario (button_ctor (some cfg) cb junk) k v j
    (Or.inl rfl) hu hk

/-- C5 (witness): the amended theorem at `long_min_cnt` = 2, `up_max_cnt` = 1
with a 1-tick press and a 2-tick release: events None, Popup, SingleClick. -/
theorem C5_witness :
    (machine_run (button_ctor (some ⟨true, true, 2, 1⟩) true
        ⟨⟨true, true, 2, 1⟩, true, false, false, none, 0, 0⟩)
      (List.replicate 1 .BTN_IO_EVENT_DOWN ++ List.replicate 2 .BTN_IO_EVENT_UP)).1 =
      List.replicate 1 (.BTN_EVENT_NONE, 1) ++
        (.BTN_EVENT_POPUP, 1) :: List.replicate 0 (.BTN_EVENT_NONE, 1) ++
        (.BTN_EVENT_SINGLE_CLICK, 1) :: List.replicate 0 (.BTN_EVENT_NONE, 1) :=
  C5_amended_single_click ⟨true, true, 2, 1⟩ true
    ⟨⟨true, true, 2, 1⟩, true, false, false, none, 0, 0⟩ 0 0 0 rfl (by decide)

end VirtualOSButton

namespace VirtualOSButton

/-! ### Claim C9: construction and quiescence at the inactive level -/

theorem quiescent_scan (act : Bool) (n : Nat) :
    ∀ (b : button_t), b.cfg.active_lv = act →
      b.jit_previous = !act → b.jit_asserted = !act →
      (b.state = some .on_idle ∨ b.state = some .on_up) →
      (button_scan_seq b (List.replicate n (!act))).1 =
        List.replicate n (.BTN_EVENT_NONE, none) := by
  induction n with
  | zero => intro b _ _ _ _; rfl
  | succ n ih =>
      intro b ha hp hA hs
      by_cases hg : (b.cfg.has_io_read = false ∨ b.state = none)
      · have hscan : button_scan b (!act) = (.BTN_EVENT_NONE, b, none) := by
          unfold button_scan; rw [if_pos hg]
        simp only [List.replicate, button_scan_seq, hscan]
        exact congrArg _ (ih b ha hp hA hs)
      · have hdeb : button_debounce b (!act) =
            (!act, { b with jit_asserted := !act, jit_previous := !act }) := by
          cases act <;> simp [button_debounce, hp, hA]
        have hio : scan_io_ev b (!act) = .BTN_IO_EVENT_UP := by
          unfold scan_io_ev
          rw [hdeb, ha]
          cases act <;> simp
        have hstepped : machine_step
            { b with jit_asserted := !act, jit_previous := !act }
            .BTN_IO_EVENT_UP =
            (.BTN_EVENT_NONE,
             { b with jit_asserted := !act, jit_previous := !act,
                      state := some .on_up }) := by
          rcases hs with hs | hs <;>
            simp [machine_step, hs, on_idle_handler, on_up_handler]
        have hres : scan_res b (!act) =
            (.BTN_EVENT_NONE,
             { b with jit_asserted := !act, jit_previous := !act,
                      state := some .on_up }) := by
          unfold scan_res
          rw [hio, hdeb]
          exact hstepped
        have hscan : button_scan b (!act) =
            (.BTN_EVENT_NONE,
             { b with jit_asserted := !act, jit_previous := !act,
                      state := some .on_up }, none) := by
          rw [button_scan_enabled b (!act) hg, hres]
          simp
        simp only [List.replicate, button_scan_seq, hscan]
        exact congrArg _ (ih _ ha rfl rfl (Or.inr rfl))

/-- C9: for every non-null configuration, `button_ctor` initialises both
debounce fields to the complement of the configured active level and sets
the state to `on_idle`; consequently, as long as the raw samples stay at the
inactive level, every scan returns `BTN_EVENT_NONE` and never invokes the
callback. -/
theorem C9_ctor_init_quiescent :
    ∀ (cfg : button_cfg_t) (cb : Bool) (junk : button_t) (n : Nat),
      (button_ctor (some cfg) cb junk).jit_previous = !cfg.active_lv ∧
      (button_ctor (some cfg) cb junk).jit_asserted = !cfg.active_lv ∧
      (button_ctor (some cfg) cb junk).state = some .on_idle ∧
      (button_scan_seq (button_ctor (some cfg) cb junk)
        (List.replicate n (!cfg.active_lv))).1 =
        List.replicate n (.BTN_EVENT_NONE, none) := by
  intro cfg cb junk n
  have hx : xor cfg.active_lv BUTTON_LEVEL_HIGH = !cfg.active_lv := by
    cases h : cfg.active_lv <;> rfl
  exact ⟨hx, hx, rfl,
    quiescent_scan cfg.active_lv n (button_ctor (some cfg) cb junk)
      rfl hx hx (Or.inl rfl)⟩

/-! ### Claim C10: null callback -/

theorem machine_step_ev_cb (b : button_t) (e : BTN_IO_EVENT_E) (c : Bool) :
    machine_step { b with has_ev_cb := c } e =
      ((machine_step b e).1, { (machine_step b e).2 with has_ev_cb := c }) := by
  rcases hs : b.state with _ | tag
  · simp [machine_step, hs]
  · cases tag <;> cases e <;>
      simp only [machine_step, hs, on_idle_handler, on_up_handler,
        on_up_suspense_handler, on_down_handler, on_down_short_handler,
        on_down_long_handler] <;>
      (try split_ifs) <;> rfl

theorem machine_step_preserves_cb (b : button_t) (e : BTN_IO_EVENT_E) :
    (machine_step b e).2.has_ev_cb = b.has_ev_cb := by
  rcases hs : b.state with _ | tag
  · simp [machine_step, hs]
  · cases tag <;> cases e <;>
      simp only [machine_step, hs, on_idle_handler, on_up_handler,
        on_up_suspense_handler, on_down_handler, on_down_short_handler,
        on_down_long_handler] <;>
      (try split_ifs) <;> rfl

/-- C10: an instance whose callback reference is null is fully enabled: a
scan produces the same event kind and the same successor state (up to the
callback-presence field itself) as the identical instance with a callback,
and the callback delivery is suppressed (payload `none`), for every input. -/
theorem C10_null_callback_enabled :
    ∀ (b : button_t) (raw : Bool), b.has_ev_cb = false →
      (button_scan b raw).2.2 = none ∧
      (button_scan b raw).1 = (button_scan { b with has_ev_cb := true } raw).1 ∧
      (button_scan b raw).2.1 =
        { (button_scan { b with has_ev_cb := true } raw).2.1 with
            has_ev_cb := false } := by
  intro b raw hcb
  by_cases hg : (b.cfg.has_io_read = false ∨ b.state = none)
  · have h1 : button_scan b raw = (.BTN_EVENT_NONE, b, none) := by
      unfold button_scan; rw [if_pos hg]
    have hg' : (({ b with has_ev_cb := true } : button_t).cfg.has_io_read = false ∨
        ({ b with has_ev_cb := true } : button_t).state = none) := hg
    have h2 : button_scan { b with has_ev_cb := true } raw =
        (.BTN_EVENT_NONE, { b with has_ev_cb := true }, none) := by
      unfold button_scan; rw [if_pos hg']
    rw [h1, h2]
    refine ⟨rfl, rfl, ?_⟩
    show b = { b with has_ev_cb := false }
    rw [← hcb]
  · have hg' : ¬(({ b with has_ev_cb := true } : button_t).cfg.has_io_read = false ∨
        ({ b with has_ev_cb := true } : button_t).state = none) := hg
    have hflag : (scan_res b raw).2.has_ev_cb = false := by
      unfold scan_res
      rw [machine_step_preserves_cb]
      exact hcb
    have hres : scan_res { b with has_ev_cb := true } raw =
        ((scan_res b raw).1, { (scan_res b raw).2 with has_ev_cb := true }) := by
      unfold scan_res scan_io_ev
      exact machine_step_ev_cb (button_debounce b raw).2 _ true
    rw [button_scan_enabled b raw hg, button_scan_enabled _ raw hg', hres]
    dsimp only
    refine ⟨?_, rfl, ?_⟩
    · rw [if_neg]
      simp [hflag]
    · rw [← hflag]
  
end VirtualOSButton

namespace VirtualOSButton

/-- C10 (witness): the theorem applied to a concrete idle instance with a
null callback and a pressed raw sample. -/
theorem C10_witness :
    (button_scan
      ⟨⟨true, true, 5, 2⟩, false, false, false, some .on_idle, 0, 1⟩
      true).2.2 = none ∧
    (button_scan
      ⟨⟨true, true, 5, 2⟩, false, false, false, some .on_idle, 0, 1⟩
      true).1 =
      (button_scan
        { (⟨⟨true, true, 5, 2⟩, false, false, false, some .on_idle, 0, 1⟩ :
            button_t) with has_ev_cb := true } true).1 ∧
    (button_scan
      ⟨⟨true, true, 5, 2⟩, false, false, false, some .on_idle, 0, 1⟩
      true).2.1 =
      { (button_scan
          { (⟨⟨true, true, 5, 2⟩, false, false, false, some .on_idle, 0, 1⟩ :
              button_t) with has_ev_cb := true } true).2.1 with
          has_ev_cb := false } :=
  C10_null_callback_enabled
    ⟨⟨true, true, 5, 2⟩, false, false, false, some .on_idle, 0, 1⟩ true rfl

end VirtualOSButton
